import Mathlib

/-!
Shallow embedding of the connection-and-execution layer of an MCP server for
Azure SQL (`src/azure_sql_mcp/server.py`): connection-string construction,
scoped connection acquisition and release (`get_connection`), delegated-token
packing, the fixed-width result renderer (`_rows_to_text`), resource-URI
parsing (`read_resource`), and the row-limit clamps of `sample_table` and
`read_resource`.
-/

/-- A cell value as seen by the renderer: either SQL NULL (Python `None`) or a
value whose natural textual representation is the given string (`str(v)`). -/
inductive Value
  | null
  | str (s : String)
deriving DecidableEq, Repr

/-- Python `str(v)` applied to a cell: `str(None)` is the 4-character `"None"`;
any other value yields its textual representation. Used on line 64 of
`server.py` for the width computation. -/
def pyStr : Value → String
  | Value.null => "None"
  | Value.str s => s

/-- The text placed in a rendered cell (line 69 of `server.py`):
`str(v)` when the value is not `None`, the literal `"NULL"` otherwise. -/
def cellText : Value → String
  | Value.null => "NULL"
  | Value.str s => s

/-- Python `s.ljust(w)`: left-justify by padding with spaces up to width `w`;
a string already at least `w` long is returned unchanged. -/
def ljust (s : String) (w : Nat) : String :=
  s ++ String.mk (List.replicate (w - s.length) ' ')

/-- Python `sep.join(l)`. -/
def pyJoin (sep : String) : List String → String
  | [] => ""
  | [s] => s
  | s :: s2 :: rest => s ++ sep ++ pyJoin sep (s2 :: rest)

/-- Line 64 of `server.py`:
`[max(len(col), max((len(str(row[i])) for row in rows), default=0)) for i, col in enumerate(columns)]`. -/
def colWidths (columns : List String) (rows : List (List Value)) : List Nat :=
  (List.range columns.length).map (fun i =>
    max (columns.getD i "").length
      ((rows.map (fun row => (pyStr (row.getD i (Value.str ""))).length)).foldr max 0))

/-- Line 65 of `server.py`: the horizontal separator. -/
def sepLine (ws : List Nat) : String :=
  "+-" ++ pyJoin "-+-" (ws.map (fun w => String.mk (List.replicate w '-'))) ++ "-+"

/-- The per-column segments of the header row (line 66 of `server.py`):
each column name left-justified to its computed width. -/
def headerCells (columns : List String) (ws : List Nat) : List String :=
  (List.range columns.length).map (fun i => ljust (columns.getD i "") (ws.getD i 0))

/-- Line 66 of `server.py`: the header row. -/
def headerLine (columns : List String) (ws : List Nat) : String :=
  "| " ++ pyJoin " | " (headerCells columns ws) ++ " |"

/-- The per-column segments of one data row (line 69 of `server.py`):
`str(v).ljust(w)` for non-NULL values, `"NULL".ljust(w)` for NULL. -/
def rowCells (row : List Value) (ws : List Nat) : List String :=
  (List.range row.length).map (fun i => ljust (cellText (row.getD i (Value.str ""))) (ws.getD i 0))

/-- Line 69 of `server.py`: one data row. -/
def rowLine (row : List Value) (ws : List Nat) : String :=
  "| " ++ pyJoin " | " (rowCells row ws) ++ " |"

/-- Line 71 of `server.py`: the `(<n> row(s))` summary line. -/
def countLine (n : Nat) : String :=
  "(" ++ toString n ++ " row" ++ (if n ≠ 1 then "s" else "") ++ ")"

/-- `_rows_to_text` (lines 59-72 of `server.py`), with the cursor's column
metadata and fetched rows passed explicitly. -/
def rows_to_text (columns : List String) (rows : List (List Value)) : String :=
  if rows.isEmpty then "(no rows)"
  else
    pyJoin "\n"
      ([sepLine (colWidths columns rows), headerLine columns (colWidths columns rows),
        sepLine (colWidths columns rows)]
       ++ rows.map (fun r => rowLine r (colWidths columns rows))
       ++ [sepLine (colWidths columns rows), countLine rows.length])

/-- Python `s.strip()`: remove leading and trailing whitespace
(line 22 of `server.py`, applied to the identity provider's stdout). -/
def pyStrip (s : String) : String :=
  String.mk (((s.data.dropWhile Char.isWhitespace).reverse.dropWhile Char.isWhitespace).reverse)

/-- `_build_conn_str` (lines 25-35 of `server.py`); `server`, `database` and the
already-lowercased `trust_cert` value come from the environment. -/
def build_conn_str (server database trust_cert : String) : String :=
  "DRIVER=\x7bODBC Driver 18 for SQL Server\x7d;" ++
  "SERVER=" ++ server ++ ";" ++
  "DATABASE=" ++ database ++ ";" ++
  "Encrypt=yes;" ++
  "TrustServerCertificate=" ++ trust_cert ++ ";"

/-- UTF-16LE encoding of one Unicode scalar value, as Python
`token.encode("utf-16-le")` produces it: two little-endian bytes for a BMP
character, a four-byte surrogate pair otherwise. -/
def utf16leChar (c : Char) : List Nat :=
  let n := c.toNat
  if n < 0x10000 then [n % 256, n / 256]
  else
    let m := n - 0x10000
    let hi := 0xD800 + m / 0x400
    let lo := 0xDC00 + m % 0x400
    [hi % 256, hi / 256, lo % 256, lo / 256]

/-- Python `token.encode("utf-16-le")` as a byte list. -/
def utf16le (s : String) : List Nat :=
  (s.data.map utf16leChar).flatten

/-- The four little-endian bytes of `struct.pack("<I", n)` (for `n < 2^32`). -/
def le32 (n : Nat) : List Nat :=
  [n % 256, n / 256 % 256, n / 65536 % 256, n / 16777216 % 256]

/-- Recompose a 4-byte little-endian sequence into the integer it denotes. -/
def fromLE32 (l : List Nat) : Nat :=
  l.getD 0 0 + 256 * l.getD 1 0 + 65536 * l.getD 2 0 + 16777216 * l.getD 3 0

/-- Line 47 of `server.py`:
`struct.pack(f"<I{len(token_bytes)}s", len(token_bytes), token_bytes)` with
`token_bytes = token.encode("utf-16-le")`. -/
def tokenStruct (token : String) : List Nat :=
  le32 (utf16le token).length ++ utf16le token

/-- The single driver call `get_connection` makes: the connection string and,
when present, the pre-connect attribute map entry (`attrs_before={1256: blob}`,
line 48 of `server.py`) as its key and byte blob. -/
structure ConnectRequest where
  connStr : String
  attrsBefore : Option (Nat × List Nat)
deriving DecidableEq, Repr

/-- Errors a `get_connection` run can surface, mirroring the Python exceptions:
`subprocess.CalledProcessError` from `check=True` (line 20), a `pyodbc` failure
from `connect`, an exception raised by the caller's work inside the `with`
block, and an exception raised by `conn.close()` itself. -/
inductive PyErr
  | calledProcessError (code : Nat)
  | connectError
  | bodyError
  | closeError
deriving DecidableEq, Repr

/-- One possible world for a run of `get_connection` (lines 38-56 of
`server.py`): the environment values it reads (`auth` is the already-lowercased
`AZURE_SQL_AUTH`, defaulted to `"sql"`), the identity-provider subprocess
outcome, and whether the driver connect, the caller's work, and the final
`conn.close()` succeed. -/
structure World where
  auth : String
  azExitCode : Nat
  azStdout : String
  server : String
  database : String
  trustCert : String
  user : String
  password : String
  connectOk : Bool
  bodyOk : Bool
  closeOk : Bool
deriving DecidableEq, Repr

deriving instance DecidableEq for Except

/-- The observable outcome of one `get_connection` scope: the driver request
made (if any), whether a connection was opened, whether `close` was called,
and the result the caller's caller sees. -/
structure RunResult where
  request : Option ConnectRequest
  connOpened : Bool
  closeCalled : Bool
  outcome : Except PyErr Unit
deriving DecidableEq, Repr

/-- The tail of a `get_connection` run once `pyodbc.connect` has returned a
connection: the caller's block runs (line 53), then the `finally` closes the
connection (lines 54-56); an exception raised by `close` replaces any pending
exception, per Python `try`/`finally` semantics. -/
def withConn (w : World) (req : ConnectRequest) : RunResult :=
  let bodyRes : Except PyErr Unit := if w.bodyOk then Except.ok () else Except.error PyErr.bodyError
  { request := some req
    connOpened := true
    closeCalled := true
    outcome := if w.closeOk then bodyRes else Except.error PyErr.closeError }

/-- `get_connection` (lines 38-56 of `server.py`) as a function of the world.
`conn` starts as `None`; `_get_az_token` raises when the subprocess exits
non-zero (`check=True`) and otherwise yields the stripped stdout with no
emptiness check; the `finally` closes the connection only if it was opened. -/
def runGetConnection (w : World) : RunResult :=
  let conn_str := build_conn_str w.server w.database w.trustCert
  if w.auth = "az_cli" then
    if w.azExitCode ≠ 0 then
      { request := none, connOpened := false, closeCalled := false,
        outcome := Except.error (PyErr.calledProcessError w.azExitCode) }
    else
      let token := pyStrip w.azStdout
      let req : ConnectRequest := ⟨conn_str, some (1256, tokenStruct token)⟩
      if w.connectOk then withConn w req
      else { request := some req, connOpened := false, closeCalled := false,
             outcome := Except.error PyErr.connectError }
  else
    let req : ConnectRequest :=
      ⟨conn_str ++ "UID=" ++ w.user ++ ";PWD=" ++ w.password ++ ";", none⟩
    if w.connectOk then withConn w req
    else { request := some req, connOpened := false, closeCalled := false,
           outcome := Except.error PyErr.connectError }

/-- Python `path.replace("mssql://", "")` (line 101 of `server.py`): remove
every non-overlapping occurrence of `mssql://`, scanning left to right. -/
def stripScheme : List Char → List Char
  | 'm' :: 's' :: 's' :: 'q' :: 'l' :: ':' :: '/' :: '/' :: rest => stripScheme rest
  | c :: rest => c :: stripScheme rest
  | [] => []

/-- Python `path.split(".", 1)` restricted to the split-found case: `none`
when the list has no `'.'`, otherwise the parts before and after the first. -/
def splitFirstDot : List Char → Option (List Char × List Char)
  | [] => none
  | c :: rest =>
    if c = '.' then some ([], rest)
    else
      match splitFirstDot rest with
      | none => none
      | some (a, b) => some (c :: a, b)

/-- The URI-parsing prefix of `read_resource` (lines 100-105 of `server.py`):
strip the scheme, split on the first `.`, and raise
`ValueError(f"Invalid resource URI: {uri}")` when the split yields fewer than
two parts. -/
def read_resource_parse (uri : String) : Except String (String × String) :=
  match splitFirstDot (stripScheme uri.data) with
  | none => Except.error ("Invalid resource URI: " ++ uri)
  | some (a, b) => Except.ok (String.mk a, String.mk b)

/-- Line 229 of `server.py`: `n = min(int(arguments.get("rows", 50)), 500)`. -/
def sample_table_n (requested : Option Int) : Int :=
  min (requested.getD 50) 500

/-- Rows returned by `SELECT TOP n * FROM t` as the driver delivers them:
SQL Server rejects a negative row-count argument (no rows are fetched),
and otherwise returns the first `n` rows of the table. -/
def topQueryRows (n : Int) (table : List (List Value)) : Option (List (List Value)) :=
  if n < 0 then none else some (table.take n.toNat)

/-- The fetch performed by the `sample_table` tool (lines 226-231 of
`server.py`) for a requested row count against a table's rows. -/
def sample_table_fetch (requested : Option Int) (table : List (List Value)) :
    Option (List (List Value)) :=
  topQueryRows (sample_table_n requested) table

/-- The number of rows a fetch actually delivered (none on a failed query). -/
def fetchedCount (r : Option (List (List Value))) : Nat :=
  (r.getD []).length

/-- The fetch performed by `read_resource` (line 108 of `server.py`):
`SELECT TOP 100 * FROM [schema].[table]`. -/
def read_resource_fetch (table : List (List Value)) : List (List Value) :=
  table.take 100

/-- The query text `read_resource` executes (line 108 of `server.py`). -/
def read_resource_query (schema table : String) : String :=
  "SELECT TOP 100 * FROM [" ++ schema ++ "].[" ++ table ++ "]"

/-! ### Helper lemmas -/

theorem cellText_length (v : Value) : (cellText v).length = (pyStr v).length := by
  cases v <;> rfl

theorem ljust_length (s : String) (w : Nat) :
    (ljust s w).length = s.length + (w - s.length) := by
  show (s ++ String.mk (List.replicate (w - s.length) ' ')).length = _
  rw [String.length_append]
  congr 1
  exact List.length_replicate _ _

theorem pyJoin_length (sep : String) :
    ∀ l : List String,
      (pyJoin sep l).length = (l.map String.length).sum + sep.length * (l.length - 1)
  | [] => by simp [pyJoin]
  | [s] => by simp [pyJoin]
  | s :: s2 :: t => by
    have ih := pyJoin_length sep (s2 :: t)
    simp only [pyJoin, String.length_append, List.map_cons, List.sum_cons,
      List.length_cons, Nat.add_sub_cancel] at ih ⊢
    rw [Nat.mul_succ]
    omega

theorem le_foldr_max {a : Nat} : ∀ {l : List Nat}, a ∈ l → a ≤ l.foldr max 0
  | b :: t, h => by
    rcases List.mem_cons.mp h with rfl | ht
    · exact le_max_left _ _
    · exact le_trans (le_foldr_max ht) (le_max_right _ _)

theorem getD_range_map {α : Type} (f : Nat → α) (n i : Nat) (d : α) (hi : i < n) :
    (((List.range n).map f).getD i d) = f i := by
  have hlen : i < ((List.range n).map f).length := by simpa
  rw [List.getD_eq_getElem _ _ hlen]
  simp

theorem colWidths_getD (columns : List String) (rows : List (List Value)) (i : Nat)
    (hi : i < columns.length) :
    (colWidths columns rows).getD i 0 =
      max (columns.getD i "").length
        ((rows.map (fun row => (pyStr (row.getD i (Value.str ""))).length)).foldr max 0) := by
  unfold colWidths
  exact getD_range_map _ _ _ _ hi

theorem headerCells_map_length (columns : List String) (rows : List (List Value)) :
    (headerCells columns (colWidths columns rows)).map String.length =
      colWidths columns rows := by
  conv_rhs => rw [colWidths]
  unfold headerCells
  rw [List.map_map]
  apply List.map_congr_left
  intro i hi
  have hi' : i < columns.length := List.mem_range.mp hi
  have hw := colWidths_getD columns rows i hi'
  have hle := le_max_left (columns.getD i "").length
    ((rows.map (fun row => (pyStr (row.getD i (Value.str ""))).length)).foldr max 0)
  simp only [Function.comp_apply]
  rw [hw, ljust_length]
  omega

theorem rowCells_map_length (columns : List String) (rows : List (List Value))
    (r : List Value) (hr : r ∈ rows) (hlen : r.length = columns.length) :
    (rowCells r (colWidths columns rows)).map String.length = colWidths columns rows := by
  conv_rhs => rw [colWidths]
  unfold rowCells
  rw [hlen, List.map_map]
  apply List.map_congr_left
  intro i hi
  have hi' : i < columns.length := List.mem_range.mp hi
  have hw := colWidths_getD columns rows i hi'
  have hmem : (pyStr (r.getD i (Value.str ""))).length ∈
      rows.map (fun row => (pyStr (row.getD i (Value.str ""))).length) :=
    List.mem_map_of_mem _ hr
  have hle := le_foldr_max hmem
  have hle2 := le_max_right (columns.getD i "").length
    ((rows.map (fun row => (pyStr (row.getD i (Value.str ""))).length)).foldr max 0)
  simp only [Function.comp_apply]
  rw [hw, ljust_length, cellText_length]
  omega

theorem splitFirstDot_eq_none : ∀ l : List Char, splitFirstDot l = none ↔ '.' ∉ l
  | [] => by simp [splitFirstDot]
  | c :: rest => by
    by_cases hc : c = '.'
    · subst hc
      simp [splitFirstDot]
    · have ih := splitFirstDot_eq_none rest
      simp only [splitFirstDot, if_neg hc]
      cases h : splitFirstDot rest with
      | none =>
        have hrest : '.' ∉ rest := ih.mp h
        have hcc : ¬('.' = c) := fun he => hc he.symm
        simp [List.mem_cons, hrest, hcc]
      | some p =>
        have hrest : '.' ∈ rest := by
          by_contra hn
          rw [ih.mpr hn] at h
          exact Option.noConfusion h
        simp [List.mem_cons, hrest]

/-! ### Claim theorems -/

/-- C1: in every world, `get_connection` calls `close` on scope exit exactly
when a connection was successfully opened — the caller's work may succeed or
fail, the connect may succeed or fail, the token fetch may succeed or fail —
so an opened connection is closed on every exit path and no close is
attempted when no connection was opened. -/
theorem connection_scope_close_iff_open (w : World) :
    (runGetConnection w).closeCalled = (runGetConnection w).connOpened := by
  unfold runGetConnection withConn
  repeat' split
  all_goals rfl

/-- C2 counterexample: with static auth, a successful connect, a successful
caller block, and a failing `conn.close()`, the close error escapes the
`get_connection` scope as the caller's outcome — it is not swallowed. -/
theorem close_error_swallowed_cex :
    (runGetConnection ⟨"sql", 0, "", "srv", "db", "no", "u", "p", true, true, false⟩).outcome
      = Except.error PyErr.closeError := by decide

/-- C2 amended: whenever `get_connection` opened a connection and the final
`conn.close()` raises, the close error propagates to the caller (replacing
even the caller's own pending error, per `try`/`finally` semantics). -/
theorem close_error_propagation (w : World)
    (hopen : (runGetConnection w).connOpened = true) (hclose : w.closeOk = false) :
    (runGetConnection w).outcome = Except.error PyErr.closeError := by
  unfold runGetConnection withConn at hopen ⊢
  repeat' split at hopen
  all_goals simp_all

/-- C2 amended witness: a concrete world in which the connection opens and the
close fails, with the close error surfacing as the scope's outcome. -/
theorem close_error_propagation_witness :
    (runGetConnection ⟨"sql", 0, "", "srv", "db", "no", "u", "p", true, true, false⟩).connOpened = true ∧
    (⟨"sql", 0, "", "srv", "db", "no", "u", "p", true, true, false⟩ : World).closeOk = false ∧
    (runGetConnection ⟨"sql", 0, "", "srv", "db", "no", "u", "p", true, true, false⟩).outcome
      = Except.error PyErr.closeError :=
  ⟨by decide, by decide,
    close_error_propagation ⟨"sql", 0, "", "srv", "db", "no", "u", "p", true, true, false⟩
      (by decide) (by decide)⟩

/-- C3 counterexample: in `az_cli` mode, when the identity-provider command
exits zero with empty output, `get_connection` raises no authentication error:
it attempts the connection anyway, with a zero-length token blob, and the
acquisition succeeds. -/
theorem empty_token_accepted_cex :
    (runGetConnection ⟨"az_cli", 0, "", "srv", "db", "no", "", "", true, true, true⟩).request
      = some ⟨build_conn_str "srv" "db" "no", some (1256, [0, 0, 0, 0])⟩ ∧
    (runGetConnection ⟨"az_cli", 0, "", "srv", "db", "no", "", "", true, true, true⟩).outcome
      = Except.ok () := by decide

/-- C3 amended: in `az_cli` mode, if the identity-provider command exits
non-zero, acquisition fails with the subprocess error and no connection
attempt is made; if it exits zero, a connection attempt is always made —
empty output is not rejected. -/
theorem az_cli_auth_failure (w : World) (hauth : w.auth = "az_cli") :
    (w.azExitCode ≠ 0 →
      (runGetConnection w).request = none ∧
      (runGetConnection w).outcome = Except.error (PyErr.calledProcessError w.azExitCode)) ∧
    (w.azExitCode = 0 → (runGetConnection w).request.isSome = true) := by
  constructor
  · intro hz
    unfold runGetConnection
    rw [if_pos hauth, if_pos hz]
    exact ⟨rfl, rfl⟩
  · intro hz
    unfold runGetConnection withConn
    rw [if_pos hauth]
    simp [hz]
    split <;> simp

/-- C3 amended witness: a concrete `az_cli` world whose identity-provider
command exits with code 1, so acquisition fails and no connection is
attempted. -/
theorem az_cli_auth_failure_witness :
    (⟨"az_cli", 1, "", "srv", "db", "no", "", "", true, true, true⟩ : World).auth = "az_cli" ∧
    (((⟨"az_cli", 1, "", "srv", "db", "no", "", "", true, true, true⟩ : World).azExitCode ≠ 0 →
      (runGetConnection ⟨"az_cli", 1, "", "srv", "db", "no", "", "", true, true, true⟩).request = none ∧
      (runGetConnection ⟨"az_cli", 1, "", "srv", "db", "no", "", "", true, true, true⟩).outcome
        = Except.error (PyErr.calledProcessError
            (⟨"az_cli", 1, "", "srv", "db", "no", "", "", true, true, true⟩ : World).azExitCode)) ∧
     ((⟨"az_cli", 1, "", "srv", "db", "no", "", "", true, true, true⟩ : World).azExitCode = 0 →
      (runGetConnection ⟨"az_cli", 1, "", "srv", "db", "no", "", "", true, true, true⟩).request.isSome = true)) :=
  ⟨by decide,
    az_cli_auth_failure ⟨"az_cli", 1, "", "srv", "db", "no", "", "", true, true, true⟩ (by decide)⟩

/-- C4: for every requested `rows` value (or its absence, defaulting to 50)
and every table, the `sample_table` fetch delivers at most 500 rows and never
a negative number of rows, and a request of 1000 is clamped to a `TOP 500`
fetch. -/
theorem sample_table_row_clamp (requested : Option Int) (table : List (List Value)) :
    fetchedCount (sample_table_fetch requested table) ≤ 500 ∧
    0 ≤ fetchedCount (sample_table_fetch requested table) ∧
    sample_table_n (some 1000) = 500 := by
  refine ⟨?_, Nat.zero_le _, by decide⟩
  unfold sample_table_fetch topQueryRows fetchedCount
  have hn : sample_table_n requested ≤ 500 := min_le_right _ _
  split
  · simp
  · simp only [Option.getD_some]
    have := List.length_take_le (sample_table_n requested).toNat table
    omega

/-- C5 counterexample: the URI `mssql://.Customers` leaves the remainder
`.Customers`, which splits into the empty schema and `Customers`; the code
accepts it instead of failing, so "exactly two non-empty parts" is not what is
enforced. -/
theorem uri_empty_part_accepted_cex :
    read_resource_parse "mssql://.Customers" = Except.ok ("", "Customers") := by
  decide

/-- C5 amended: `read_resource` strips the scheme and splits the remainder on
the first `.`; it raises the invalid-URI error exactly when the remainder
contains no `.` at all — the two parts are not required to be non-empty.
`mssql://dbo.Customers` parses to schema `dbo` and table `Customers`, and
`mssql://bad` fails. -/
theorem resource_uri_parse (uri : String) :
    ((read_resource_parse uri = Except.error ("Invalid resource URI: " ++ uri)) ↔
      '.' ∉ stripScheme uri.data) ∧
    read_resource_parse "mssql://dbo.Customers" = Except.ok ("dbo", "Customers") ∧
    read_resource_parse "mssql://bad" = Except.error "Invalid resource URI: mssql://bad" := by
  refine ⟨?_, by decide, by decide⟩
  unfold read_resource_parse
  cases h : splitFirstDot (stripScheme uri.data) with
  | none =>
    simp [(splitFirstDot_eq_none (stripScheme uri.data)).mp h]
  | some p =>
    have hmem : '.' ∈ stripScheme uri.data := by
      by_contra hn
      rw [(splitFirstDot_eq_none (stripScheme uri.data)).mpr hn] at h
      exact Option.noConfusion h
    simp [hmem]

/-- C10: the `read_resource` fetch returns at most 100 rows, and what it
returns is exactly an initial segment of the table (prepending it to the rest
of the table reconstitutes the table); the executed statement is a `TOP 100`
query. -/
theorem resource_read_row_limit (table : List (List Value)) :
    (read_resource_fetch table).length ≤ 100 ∧
    read_resource_fetch table ++ table.drop 100 = table ∧
    read_resource_query "dbo" "Customers" = "SELECT TOP 100 * FROM [dbo].[Customers]" := by
  refine ⟨?_, ?_, by decide⟩
  · exact List.length_take_le 100 table
  · exact List.take_append_drop 100 table

/-- C6: for a non-empty rectangular result set, every header cell and every
data cell is rendered at exactly the computed per-column width (the maximum of
the column-name length and the stringified values' lengths in that column),
and consequently every data line has the same character length as the header
line. -/
theorem render_line_lengths (columns : List String) (rows : List (List Value))
    (_hne : rows ≠ []) (hrect : ∀ r ∈ rows, r.length = columns.length) :
    (headerCells columns (colWidths columns rows)).map String.length = colWidths columns rows ∧
    (∀ r ∈ rows, (rowCells r (colWidths columns rows)).map String.length = colWidths columns rows) ∧
    (∀ r ∈ rows, (rowLine r (colWidths columns rows)).length =
      (headerLine columns (colWidths columns rows)).length) := by
  refine ⟨headerCells_map_length columns rows,
    fun r hr => rowCells_map_length columns rows r hr (hrect r hr),
    fun r hr => ?_⟩
  have h1 := headerCells_map_length columns rows
  have h2 := rowCells_map_length columns rows r hr (hrect r hr)
  have hc1 : (headerCells columns (colWidths columns rows)).length =
      (colWidths columns rows).length := by
    have := congrArg List.length h1
    simpa using this
  have hc2 : (rowCells r (colWidths columns rows)).length =
      (colWidths columns rows).length := by
    have := congrArg List.length h2
    simpa using this
  simp only [rowLine, headerLine, String.length_append, pyJoin_length]
  rw [h1, h2, hc1, hc2]

/-- C6 witness: a concrete two-column, two-row result set (containing a NULL)
on which the theorem's hypotheses hold and its conclusions follow. -/
theorem render_line_lengths_witness :
    (([[Value.str "1", Value.null], [Value.str "200", Value.str "Bob"]] : List (List Value)) ≠ []) ∧
    ((∀ r ∈ ([[Value.str "1", Value.null], [Value.str "200", Value.str "Bob"]] : List (List Value)),
        r.length = (["id", "name"] : List String).length) ∧
     ((headerCells ["id", "name"] (colWidths ["id", "name"] [[Value.str "1", Value.null], [Value.str "200", Value.str "Bob"]])).map String.length
        = colWidths ["id", "name"] [[Value.str "1", Value.null], [Value.str "200", Value.str "Bob"]] ∧
      (∀ r ∈ ([[Value.str "1", Value.null], [Value.str "200", Value.str "Bob"]] : List (List Value)),
        (rowCells r (colWidths ["id", "name"] [[Value.str "1", Value.null], [Value.str "200", Value.str "Bob"]])).map String.length
          = colWidths ["id", "name"] [[Value.str "1", Value.null], [Value.str "200", Value.str "Bob"]]) ∧
      (∀ r ∈ ([[Value.str "1", Value.null], [Value.str "200", Value.str "Bob"]] : List (List Value)),
        (rowLine r (colWidths ["id", "name"] [[Value.str "1", Value.null], [Value.str "200", Value.str "Bob"]])).length
          = (headerLine ["id", "name"] (colWidths ["id", "name"] [[Value.str "1", Value.null], [Value.str "200", Value.str "Bob"]])).length))) :=
  ⟨by decide, by decide,
    render_line_lengths ["id", "name"] [[Value.str "1", Value.null], [Value.str "200", Value.str "Bob"]]
      (by decide) (by decide)⟩

/-- C7: a NULL cell is rendered as the literal token `NULL` left-justified to
its column's width, and because `str(None)` has length 4 the computed width of
a column containing a NULL is at least 4. -/
theorem render_null_cell (columns : List String) (rows : List (List Value))
    (r : List Value) (i : Nat) (hr : r ∈ rows) (hlen : r.length = columns.length)
    (hi : i < r.length) (hnull : r.getD i (Value.str "") = Value.null) :
    4 ≤ (colWidths columns rows).getD i 0 ∧
    (rowCells r (colWidths columns rows)).getD i "" =
      ljust "NULL" ((colWidths columns rows).getD i 0) := by
  have hi' : i < columns.length := hlen ▸ hi
  have hw := colWidths_getD columns rows i hi'
  constructor
  · have hmem : (pyStr (r.getD i (Value.str ""))).length ∈
        rows.map (fun row => (pyStr (row.getD i (Value.str ""))).length) :=
      List.mem_map_of_mem _ hr
    have hle := le_foldr_max hmem
    have h4 : (pyStr (r.getD i (Value.str ""))).length = 4 := by rw [hnull]; rfl
    have hle2 := le_max_right (columns.getD i "").length
      ((rows.map (fun row => (pyStr (row.getD i (Value.str ""))).length)).foldr max 0)
    omega
  · unfold rowCells
    rw [getD_range_map _ _ _ _ hi, hnull]
    rfl

/-- C7 witness: the column `x` over values `1`, NULL, `100` has computed width
4, and the NULL row's cell is `NULL` left-justified to that width. -/
theorem render_null_cell_witness :
    (([Value.null] : List Value) ∈ ([[Value.str "1"], [Value.null], [Value.str "100"]] : List (List Value))) ∧
    (([Value.null] : List Value).length = (["x"] : List String).length ∧
     0 < ([Value.null] : List Value).length ∧
     ([Value.null] : List Value).getD 0 (Value.str "") = Value.null ∧
     (4 ≤ (colWidths ["x"] [[Value.str "1"], [Value.null], [Value.str "100"]]).getD 0 0 ∧
      (rowCells [Value.null] (colWidths ["x"] [[Value.str "1"], [Value.null], [Value.str "100"]])).getD 0 "" =
        ljust "NULL" ((colWidths ["x"] [[Value.str "1"], [Value.null], [Value.str "100"]]).getD 0 0))) :=
  ⟨by decide, by decide, by decide, by decide,
    render_null_cell ["x"] [[Value.str "1"], [Value.null], [Value.str "100"]] [Value.null] 0
      (by decide) (by decide) (by decide) (by decide)⟩

/-- C8: with any auth mode other than `az_cli` (static credentials), the
driver is called with the base connection string followed verbatim by
`UID=<user>;PWD=<password>;`, and no pre-connect attribute is passed. -/
theorem static_credential_request (w : World) (hauth : w.auth ≠ "az_cli") :
    (runGetConnection w).request =
      some ⟨build_conn_str w.server w.database w.trustCert
              ++ "UID=" ++ w.user ++ ";PWD=" ++ w.password ++ ";", none⟩ := by
  unfold runGetConnection withConn
  rw [if_neg hauth]
  split <;> rfl

/-- C8 witness: with auth mode `sql`, username `u` and password `p`, the
driver request is the base string with `UID=u;PWD=p;` appended and no
pre-connect attribute. -/
theorem static_credential_request_witness :
    ((⟨"sql", 0, "", "srv", "db", "no", "u", "p", true, true, true⟩ : World).auth ≠ "az_cli") ∧
    (runGetConnection ⟨"sql", 0, "", "srv", "db", "no", "u", "p", true, true, true⟩).request =
      some ⟨build_conn_str "srv" "db" "no" ++ "UID=" ++ "u" ++ ";PWD=" ++ "p" ++ ";", none⟩ :=
  ⟨by decide,
    static_credential_request ⟨"sql", 0, "", "srv", "db", "no", "u", "p", true, true, true⟩
      (by decide)⟩

/-- C9: in `az_cli` mode with a successfully fetched non-empty token whose
UTF-16LE encoding fits a 4-byte length field, the driver request carries the
bare base connection string (the token is not embedded in it) together with
pre-connect attribute key 1256 whose blob is the UTF-16LE byte count as four
little-endian bytes followed by the UTF-16LE bytes themselves; the length
prefix is exactly 4 bytes and decodes back to the byte count. -/
theorem delegated_token_attribute (w : World) (hauth : w.auth = "az_cli")
    (hexit : w.azExitCode = 0) (_hne : pyStrip w.azStdout ≠ "")
    (hlen : (utf16le (pyStrip w.azStdout)).length < 4294967296) :
    (runGetConnection w).request =
      some ⟨build_conn_str w.server w.database w.trustCert,
            some (1256, le32 (utf16le (pyStrip w.azStdout)).length
                          ++ utf16le (pyStrip w.azStdout))⟩ ∧
    (le32 (utf16le (pyStrip w.azStdout)).length).length = 4 ∧
    fromLE32 (le32 (utf16le (pyStrip w.azStdout)).length) =
      (utf16le (pyStrip w.azStdout)).length := by
  refine ⟨?_, rfl, ?_⟩
  · unfold runGetConnection withConn
    rw [if_pos hauth, if_neg (by simp [hexit])]
    split <;> rfl
  · unfold fromLE32 le32
    simp only [List.getD_cons_zero, List.getD_cons_succ]
    omega

/-- C9 witness: the concrete token `tok` (6 UTF-16LE bytes) is packed as
`[6,0,0,0]` followed by its bytes under attribute key 1256, next to the bare
base connection string. -/
theorem delegated_token_attribute_witness :
    ((⟨"az_cli", 0, "tok", "srv", "db", "no", "", "", true, true, true⟩ : World).auth = "az_cli") ∧
    ((⟨"az_cli", 0, "tok", "srv", "db", "no", "", "", true, true, true⟩ : World).azExitCode = 0) ∧
    (pyStrip "tok" ≠ "") ∧
    ((utf16le (pyStrip "tok")).length < 4294967296) ∧
    ((runGetConnection ⟨"az_cli", 0, "tok", "srv", "db", "no", "", "", true, true, true⟩).request =
      some ⟨build_conn_str "srv" "db" "no",
            some (1256, le32 (utf16le (pyStrip "tok")).length ++ utf16le (pyStrip "tok"))⟩ ∧
     (le32 (utf16le (pyStrip "tok")).length).length = 4 ∧
     fromLE32 (le32 (utf16le (pyStrip "tok")).length) = (utf16le (pyStrip "tok")).length) :=
  ⟨by decide, by decide, by decide, by decide,
    delegated_token_attribute ⟨"az_cli", 0, "tok", "srv", "db", "no", "", "", true, true, true⟩
      (by decide) (by decide) (by decide) (by decide)⟩
